import Mathlib

/-!
Verification of the `ghostfolio` Python API client
(`src/ghostfolio/__init__.py`) against its natural-language specification.

The client is embedded shallowly:
* JSON values are the inductive `Json`;
* the HTTP transport is a function `Request → HResponse` supplied by the
  environment (one deterministic response per request);
* `datetime.now()` is an explicit `now : Int` parameter (seconds);
* each client operation returns the list of HTTP requests it issued (in
  order), the error-log lines it wrote, an `Except` result (a Python
  exception or the returned value), and the updated client state.
-/

/-- A JSON value, as produced by `resp.json()`. -/
inductive Json where
  | null : Json
  | bool (b : Bool) : Json
  | num (n : Int) : Json
  | str (s : String) : Json
  | arr (elems : List Json) : Json
  | obj (fields : List (String × Json)) : Json

/-- HTTP method of a dispatched request. -/
inductive Method where
  | GET : Method
  | POST : Method
  | PUT : Method
deriving DecidableEq, Repr

/-- An outbound HTTP request, as assembled by the `requests` calls in the
source.  `formData` models the `data=` keyword (form-encoded body, used by
the credential exchange on line 88); `jsonBody` models the `json=` keyword
(JSON body, used by `post`/`put`); they are distinct on the wire. -/
structure Request where
  method : Method
  url : String
  authHeader : Option String
  params : Option (List (String × String))
  formData : Option (List (String × String))
  jsonBody : Option Json

/-- The transport's answer to one request. -/
structure HResponse where
  status : Nat
  text : String
  json : Json

/-- Python exceptions the embedded code can raise. -/
inductive PyError where
  /-- Raised `requests.exceptions.HTTPError` from `raise_for_status` (line 206). -/
  | httpError (status : Nat) (body : String) : PyError
  /-- Raised `TypeError` from comparing a `None` expiry with `datetime.now()`
  (line 82). -/
  | noneCompare : PyError
  /-- Raised `KeyError` from a missing dictionary key (line 91). -/
  | keyError (k : String) : PyError
  /-- A value outside the type the source annotates (e.g. a non-string
  `authToken`). -/
  | typeError : PyError
deriving DecidableEq, Repr

/-- The mutable state of a `Ghostfolio` client instance (lines 51-55). -/
structure Ghostfolio where
  host : String
  token : String
  jwt_token : Option String
  jwt_token_expiry : Option Int
  verify_ssl : Bool
deriving DecidableEq, Repr

/-- Embeds `Ghostfolio.__init__` (lines 40-55): the credential cache starts empty. -/
def Ghostfolio.mk0 (token : String) (host : String) (verify_ssl : Bool) :
    Ghostfolio :=
  { host := host
    token := token
    jwt_token := none
    jwt_token_expiry := none
    verify_ssl := verify_ssl }

/-- Everything one client call produces: the requests it dispatched in
order, the error-log lines, the result (value or raised exception), and the
state after the call. -/
structure CallResult (α : Type) where
  trace : List Request
  log : List String
  result : Except PyError α
  state : Ghostfolio

/-- Embeds `Ghostfolio._url` (lines 57-73).  Note the Python truthiness test
`if object_id`: an empty-string id appends nothing. -/
def Ghostfolio.url (g : Ghostfolio) (endpoint : String)
    (object_id : Option String) (api_version : String) : String :=
  g.host ++ "/api/" ++ api_version ++ "/" ++ endpoint ++ "/" ++
    (match object_id with
     | some oid => if oid = "" then "" else oid ++ "/"
     | none => "")

/-- URL of the credential-exchange endpoint (line 87). -/
def authUrl (host : String) : String :=
  host ++ "/api/v1/auth/anonymous/"

/-- The credential-exchange request (lines 86-90): a POST whose body is the
form-encoded (`data=` positional argument of `requests.post`) field
`accessToken`. -/
def authRequest (g : Ghostfolio) : Request :=
  { method := .POST
    url := authUrl g.host
    authHeader := none
    params := none
    formData := some [("accessToken", g.token)]
    jsonBody := none }

/-- Whether `Response.raise_for_status` raises: it does exactly on 4xx/5xx status codes. -/
def isErrorStatus (s : Nat) : Bool :=
  400 ≤ s && s < 600

/-- Embeds `Ghostfolio._process_response` (lines 191-211): on 4xx/5xx log the body
and raise `HTTPError`; otherwise return the decoded JSON. -/
def process_response (resp : HResponse) :
    List String × Except PyError Json :=
  if isErrorStatus resp.status then
    ([resp.text], .error (.httpError resp.status resp.text))
  else
    ([], .ok resp.json)

/-- First binding of a key in a decoded JSON object (Python dict access). -/
def lookupField : List (String × Json) → String → Option Json
  | [], _ => none
  | (k, v) :: rest, key => if k = key then some v else lookupField rest key

/-- Embeds the subscript `resp_json["authToken"]` (line 91): subscripting a non-object raises,
a missing key raises `KeyError`; the value is declared `str` by the
source's annotations, so a non-string is a type error. -/
def extractAuthToken : Json → Except PyError String
  | .obj fields =>
      match lookupField fields "authToken" with
      | some (.str s) => .ok s
      | some _ => .error .typeError
      | none => .error (.keyError "authToken")
  | _ => .error .typeError

/-- Embeds `timedelta(days=30)` in seconds (line 92). -/
def thirtyDays : Int := 30 * 86400

/-- The exchange-and-store block of `_refresh_jwt_token` (lines 85-92):
POST the static token to the anonymous-auth endpoint, store the returned
`authToken`, and set the expiry to now + 30 days.  On any raise the cached
credential is left untouched. -/
def doExchange (transport : Request → HResponse) (now : Int)
    (g : Ghostfolio) : CallResult Unit :=
  let req := authRequest g
  let resp := transport req
  let pr := process_response resp
  match pr.2 with
  | .error e => { trace := [req], log := pr.1, result := .error e, state := g }
  | .ok j =>
      match extractAuthToken j with
      | .error e =>
          { trace := [req], log := pr.1, result := .error e, state := g }
      | .ok tok =>
          { trace := [req]
            log := pr.1
            result := .ok ()
            state := { g with
                        jwt_token := some tok
                        jwt_token_expiry := some (now + thirtyDays) } }

/-- Embeds `Ghostfolio._refresh_jwt_token` (lines 75-92), guard as written on
line 82: `if self._jwt_token is not None and self._jwt_token_expiry <
datetime.now(): return`.  The early return is taken exactly when a token is
cached AND its expiry is already in the past; comparing a `None` expiry
raises `TypeError`. -/
def refresh_jwt_token (transport : Request → HResponse) (now : Int)
    (g : Ghostfolio) : CallResult Unit :=
  match g.jwt_token with
  | some _ =>
      match g.jwt_token_expiry with
      | none => { trace := [], log := [], result := .error .noneCompare, state := g }
      | some exp =>
          if exp < now then
            { trace := [], log := [], result := .ok (), state := g }
          else
            doExchange transport now g
  | none => doExchange transport now g

/-- The Authorization header value `f"Bearer {self._jwt_token}"`
(lines 119, 152, 185); a `None` token would be interpolated as the text
`None` by the f-string. -/
def bearerHeader : Option String → String
  | some t => "Bearer " ++ t
  | none => "Bearer None"

/-- The GET request assembled on lines 117-122. -/
def getRequest (g : Ghostfolio) (endpoint : String)
    (params : Option (List (String × String))) (api_version : String) :
    Request :=
  { method := .GET
    url := g.url endpoint none api_version
    authHeader := some (bearerHeader g.jwt_token)
    params := params
    formData := none
    jsonBody := none }

/-- The POST request assembled on lines 150-155. -/
def postRequest (g : Ghostfolio) (endpoint : String) (data : Option Json)
    (api_version : String) (object_id : Option String) : Request :=
  { method := .POST
    url := g.url endpoint object_id api_version
    authHeader := some (bearerHeader g.jwt_token)
    params := none
    formData := none
    jsonBody := data }

/-- The PUT request assembled on lines 183-188. -/
def putRequest (g : Ghostfolio) (endpoint : String) (data : Option Json)
    (api_version : String) (object_id : Option String) : Request :=
  { method := .PUT
    url := g.url endpoint object_id api_version
    authHeader := some (bearerHeader g.jwt_token)
    params := none
    formData := none
    jsonBody := data }

/-- Dispatch a fully-built resource request after a completed refresh:
the shared tail of `get`/`post`/`put` (`self._process_response(requests.X
(...))`). -/
def dispatch (transport : Request → HResponse) (r : CallResult Unit)
    (req : Request) : CallResult Json :=
  match r.result with
  | .error e =>
      { trace := r.trace, log := r.log, result := .error e, state := r.state }
  | .ok _ =>
      let resp := transport req
      let pr := process_response resp
      { trace := r.trace ++ [req]
        log := r.log ++ pr.1
        result := pr.2
        state := r.state }

/-- Embeds `Ghostfolio.get` (lines 94-123): refresh the credential, then GET the
resource URL with the bearer header and the given query parameters. -/
def Ghostfolio.get (transport : Request → HResponse) (now : Int)
    (g : Ghostfolio) (endpoint : String)
    (params : Option (List (String × String))) (api_version : String) :
    CallResult Json :=
  let r := refresh_jwt_token transport now g
  dispatch transport r (getRequest r.state endpoint params api_version)

/-- Embeds `Ghostfolio.post` (lines 125-156). -/
def Ghostfolio.post (transport : Request → HResponse) (now : Int)
    (g : Ghostfolio) (endpoint : String) (data : Option Json)
    (api_version : String) (object_id : Option String) : CallResult Json :=
  let r := refresh_jwt_token transport now g
  dispatch transport r (postRequest r.state endpoint data api_version object_id)

/-- Embeds `Ghostfolio.put` (lines 158-189). -/
def Ghostfolio.put (transport : Request → HResponse) (now : Int)
    (g : Ghostfolio) (endpoint : String) (data : Option Json)
    (api_version : String) (object_id : Option String) : CallResult Json :=
  let r := refresh_jwt_token transport now g
  dispatch transport r (putRequest r.state endpoint data api_version object_id)

/-- Embeds `Ghostfolio.orders` (lines 213-236): Python truthiness on
`account_id` means an empty string also omits the parameter. -/
def Ghostfolio.orders (transport : Request → HResponse) (now : Int)
    (g : Ghostfolio) (account_id : Option String) : CallResult Json :=
  let params :=
    match account_id with
    | some a => if a = "" then none else some [("accounts", a)]
    | none => none
  g.get transport now "order" params "v1"

/-- Embeds `Ghostfolio.performance` (lines 238-275). -/
def Ghostfolio.performance (transport : Request → HResponse) (now : Int)
    (g : Ghostfolio) (date_range : String) : CallResult Json :=
  g.get transport now "portfolio/performance"
    (some [("range", date_range)]) "v2"

/-- Embeds `Ghostfolio.holdings` (lines 277-312). -/
def Ghostfolio.holdings (transport : Request → HResponse) (now : Int)
    (g : Ghostfolio) (date_range : String) : CallResult Json :=
  g.get transport now "portfolio/holdings" (some [("range", date_range)]) "v1"

/-- Embeds `Ghostfolio.position` (lines 314-342). -/
def Ghostfolio.position (transport : Request → HResponse) (now : Int)
    (g : Ghostfolio) (data_source : String) (symbol : String) :
    CallResult Json :=
  g.get transport now ("portfolio/position/" ++ data_source ++ "/" ++ symbol)
    none "v1"

/-- Embeds `Ghostfolio.import_transactions` (lines 344-378): POSTs the body to
the import endpoint and discards the decoded response (the method returns
`None`). -/
def Ghostfolio.import_transactions (transport : Request → HResponse)
    (now : Int) (g : Ghostfolio) (data : Json) : CallResult Unit :=
  let r := g.post transport now "import" (some data) "v1" none
  { trace := r.trace, log := r.log, result := r.result.map (fun _ => ()),
    state := r.state }

/-- Embeds `Ghostfolio.details` (lines 380-400). -/
def Ghostfolio.details (transport : Request → HResponse) (now : Int)
    (g : Ghostfolio) : CallResult Json :=
  g.get transport now "portfolio/details" none "v1"

/-- Embeds `Ghostfolio.investments` (lines 402-442). -/
def Ghostfolio.investments (transport : Request → HResponse) (now : Int)
    (g : Ghostfolio) (group_by : String) (date_range : String) :
    CallResult Json :=
  g.get transport now "portfolio/investments"
    (some [("range", date_range), ("groupBy", group_by)]) "v1"

/-- Embeds `Ghostfolio.dividends` (lines 444-484). -/
def Ghostfolio.dividends (transport : Request → HResponse) (now : Int)
    (g : Ghostfolio) (group_by : String) (date_range : String) :
    CallResult Json :=
  g.get transport now "portfolio/dividends"
    (some [("range", date_range), ("groupBy", group_by)]) "v1"

/-- Embeds `Ghostfolio.accounts` (lines 486-505). -/
def Ghostfolio.accounts (transport : Request → HResponse) (now : Int)
    (g : Ghostfolio) : CallResult Json :=
  g.get transport now "account" none "v1"

/-- Embeds `Ghostfolio.market_data_admin` (lines 507-527). -/
def Ghostfolio.market_data_admin (transport : Request → HResponse)
    (now : Int) (g : Ghostfolio) : CallResult Json :=
  g.get transport now "admin/market-data" none "v1"

/-- Embeds `Ghostfolio.market_data` (lines 529-557). -/
def Ghostfolio.market_data (transport : Request → HResponse) (now : Int)
    (g : Ghostfolio) (data_source : String) (symbol : String) :
    CallResult Json :=
  g.get transport now ("admin/market-data/" ++ data_source ++ "/" ++ symbol)
    none "v1"

/-- How many credential-exchange requests (POSTs to the anonymous-auth
endpoint) a trace contains. -/
def countAuth (host : String) (trace : List Request) : Nat :=
  trace.countP (fun r => r.url == authUrl host)

/-- The credential-cache coherence invariant: token and expiry are absent
together. -/
def cacheInv (g : Ghostfolio) : Prop :=
  g.jwt_token = none ↔ g.jwt_token_expiry = none

/-! ## Concrete fixtures used by witnesses and counterexamples -/

/-- A transport on host `h`: the credential exchange succeeds (status 201,
token `JWT`), every other request succeeds with status 200 and body `7`. -/
def okTransport : Request → HResponse := fun r =>
  if r.url = authUrl "h" then
    { status := 201, text := "auth-ok", json := .obj [("authToken", .str "JWT")] }
  else
    { status := 200, text := "resource-ok", json := .num 7 }

/-- Same as `okTransport` except that resource bodies are `8`. -/
def okTransport8 : Request → HResponse := fun r =>
  if r.url = authUrl "h" then
    { status := 201, text := "auth-ok", json := .obj [("authToken", .str "JWT")] }
  else
    { status := 200, text := "resource-ok", json := .num 8 }

/-- A freshly constructed client: empty credential cache. -/
def freshClient : Ghostfolio := Ghostfolio.mk0 "SECRET" "h" true

/-- A client holding a cached token whose expiry (100) is in the future of
the reference instant `now = 0`. -/
def validClient : Ghostfolio :=
  { freshClient with jwt_token := some "OLD", jwt_token_expiry := some 100 }

/-- A client holding a cached token whose expiry (-5) is in the past of the
reference instant `now = 0`. -/
def expiredClient : Ghostfolio :=
  { freshClient with jwt_token := some "OLD", jwt_token_expiry := some (-5) }

/-! ## General lemmas about the embedded operations -/

lemma ne_of_length_ne (a b : String) (h : a.length ≠ b.length) : a ≠ b :=
  fun he => h (congrArg String.length he)

lemma url_none_ne_authUrl (g : Ghostfolio) (e v : String)
    (h : v.length + e.length ≠ 16) : g.url e none v ≠ authUrl g.host := by
  apply ne_of_length_ne
  have h1 : ("/api/" : String).length = 5 := rfl
  have h2 : ("/" : String).length = 1 := rfl
  have h3 : ("" : String).length = 0 := rfl
  have h4 : ("/api/v1/auth/anonymous/" : String).length = 23 := rfl
  simp [Ghostfolio.url, authUrl, String.length_append, h1, h2, h3, h4]
  omega

lemma url_congr_host (g1 g2 : Ghostfolio) (e : String) (oid : Option String)
    (v : String) (h : g1.host = g2.host) : g1.url e oid v = g2.url e oid v := by
  simp [Ghostfolio.url, h]

lemma doExchange_trace (T : Request → HResponse) (now : Int) (g : Ghostfolio) :
    (doExchange T now g).trace = [authRequest g] := by
  simp only [doExchange]
  split
  · rfl
  · split <;> rfl

lemma doExchange_state_cases (T : Request → HResponse) (now : Int)
    (g : Ghostfolio) :
    (doExchange T now g).state = g ∨
      ∃ tok, (doExchange T now g).state =
        { g with jwt_token := some tok,
                 jwt_token_expiry := some (now + thirtyDays) } := by
  simp only [doExchange]
  split
  · exact Or.inl rfl
  · split
    · exact Or.inl rfl
    · next tok _ => exact Or.inr ⟨tok, rfl⟩

lemma doExchange_host (T : Request → HResponse) (now : Int) (g : Ghostfolio) :
    (doExchange T now g).state.host = g.host := by
  rcases doExchange_state_cases T now g with h | ⟨tok, h⟩ <;> rw [h]

lemma doExchange_ok_state (T : Request → HResponse) (now : Int) (g : Ghostfolio)
    (h : (doExchange T now g).result = .ok ()) :
    ∃ tok, extractAuthToken (T (authRequest g)).json = .ok tok ∧
      (doExchange T now g).state =
        { g with jwt_token := some tok,
                 jwt_token_expiry := some (now + thirtyDays) } := by
  revert h
  simp only [doExchange]
  split
  · intro h; exact absurd h (by simp)
  · next j heq =>
    split
    · intro h; exact absurd h (by simp)
    · next tok htok =>
      intro _
      refine ⟨tok, ?_, rfl⟩
      have hj : (process_response (T (authRequest g))).2 = Except.ok j := heq
      unfold process_response at hj
      by_cases hs : isErrorStatus (T (authRequest g)).status
      · simp [hs] at hj
      · simp [hs] at hj
        rw [hj]
        exact htok

lemma doExchange_ok_status (T : Request → HResponse) (now : Int)
    (g : Ghostfolio) (h : (doExchange T now g).result = .ok ()) :
    isErrorStatus (T (authRequest g)).status = false := by
  revert h
  simp only [doExchange]
  by_cases hs : isErrorStatus (T (authRequest g)).status
  · simp [process_response, hs]
  · intro _; exact eq_false_of_ne_true hs

lemma refresh_of_no_token (T : Request → HResponse) (now : Int)
    (g : Ghostfolio) (h : g.jwt_token = none) :
    refresh_jwt_token T now g = doExchange T now g := by
  unfold refresh_jwt_token
  rw [h]

lemma refresh_trace_cases (T : Request → HResponse) (now : Int)
    (g : Ghostfolio) :
    (refresh_jwt_token T now g).trace = [] ∨
      (refresh_jwt_token T now g).trace = [authRequest g] := by
  cases h : g.jwt_token with
  | none =>
    rw [refresh_of_no_token T now g h]
    exact Or.inr (doExchange_trace T now g)
  | some t =>
    cases h2 : g.jwt_token_expiry with
    | none =>
      simp only [refresh_jwt_token, h, h2]
      exact Or.inl trivial
    | some exp =>
      by_cases hlt : exp < now
      · simp only [refresh_jwt_token, h, h2, hlt, if_true]
        exact Or.inl trivial
      · simp only [refresh_jwt_token, h, h2, hlt, if_false]
        exact Or.inr (doExchange_trace T now g)

lemma refresh_state_cases (T : Request → HResponse) (now : Int)
    (g : Ghostfolio) :
    (refresh_jwt_token T now g).state = g ∨
      ∃ tok, (refresh_jwt_token T now g).state =
        { g with jwt_token := some tok,
                 jwt_token_expiry := some (now + thirtyDays) } := by
  cases h : g.jwt_token with
  | none =>
    rw [refresh_of_no_token T now g h]
    exact doExchange_state_cases T now g
  | some t =>
    cases h2 : g.jwt_token_expiry with
    | none =>
      simp only [refresh_jwt_token, h, h2]
      exact Or.inl trivial
    | some exp =>
      by_cases hlt : exp < now
      · simp only [refresh_jwt_token, h, h2, hlt, if_true]
        exact Or.inl trivial
      · simp only [refresh_jwt_token, h, h2, hlt, if_false]
        exact doExchange_state_cases T now g

lemma refresh_host (T : Request → HResponse) (now : Int) (g : Ghostfolio) :
    (refresh_jwt_token T now g).state.host = g.host := by
  rcases refresh_state_cases T now g with h | ⟨tok, h⟩ <;> rw [h]

lemma dispatch_ok (T : Request → HResponse) (r : CallResult Unit)
    (req : Request) (h : r.result = .ok ()) :
    dispatch T r req =
      { trace := r.trace ++ [req]
        log := r.log ++ (process_response (T req)).1
        result := (process_response (T req)).2
        state := r.state } := by
  unfold dispatch
  rw [h]

lemma dispatch_err (T : Request → HResponse) (r : CallResult Unit)
    (req : Request) (e : PyError) (h : r.result = .error e) :
    dispatch T r req =
      { trace := r.trace, log := r.log, result := .error e, state := r.state } := by
  unfold dispatch
  rw [h]

lemma get_def (T : Request → HResponse) (now : Int) (g : Ghostfolio)
    (e : String) (p : Option (List (String × String))) (v : String) :
    Ghostfolio.get T now g e p v =
      dispatch T (refresh_jwt_token T now g)
        (getRequest (refresh_jwt_token T now g).state e p v) := rfl

lemma post_def (T : Request → HResponse) (now : Int) (g : Ghostfolio)
    (e : String) (d : Option Json) (v : String) (oid : Option String) :
    Ghostfolio.post T now g e d v oid =
      dispatch T (refresh_jwt_token T now g)
        (postRequest (refresh_jwt_token T now g).state e d v oid) := rfl

lemma put_def (T : Request → HResponse) (now : Int) (g : Ghostfolio)
    (e : String) (d : Option Json) (v : String) (oid : Option String) :
    Ghostfolio.put T now g e d v oid =
      dispatch T (refresh_jwt_token T now g)
        (putRequest (refresh_jwt_token T now g).state e d v oid) := rfl

lemma countAuth_nil (host : String) : countAuth host [] = 0 := rfl

lemma countAuth_cons (host : String) (r : Request) (l : List Request) :
    countAuth host (r :: l) =
      countAuth host l + (if r.url = authUrl host then 1 else 0) := by
  simp [countAuth, List.countP_cons]

/-- Trace shape asserted by the spec for a first call: the trace opens with
the credential-exchange request and contains no other request to the
anonymous-auth endpoint. -/
def oneExchangeFirst (g : Ghostfolio) (tr : List Request) : Prop :=
  tr.head? = some (authRequest g) ∧ countAuth g.host tr = 1

lemma countAuth_auth_single (g : Ghostfolio) :
    countAuth g.host [authRequest g] = 1 := by
  simp [countAuth_cons, countAuth_nil, authRequest]

lemma countAuth_auth_pair (g : Ghostfolio) (r : Request)
    (h : r.url ≠ authUrl g.host) :
    countAuth g.host [authRequest g, r] = 1 := by
  simp [countAuth_cons, countAuth_nil, authRequest, h]

lemma fresh_get_oneExchange (T : Request → HResponse) (now : Int)
    (g : Ghostfolio) (e : String) (p : Option (List (String × String)))
    (v : String) (hTok : g.jwt_token = none)
    (hurl : g.url e none v ≠ authUrl g.host) :
    oneExchangeFirst g (Ghostfolio.get T now g e p v).trace := by
  rw [get_def, refresh_of_no_token T now g hTok]
  cases hres : (doExchange T now g).result with
  | error err =>
    rw [dispatch_err T _ _ err hres]
    exact ⟨by rw [doExchange_trace]; rfl, by rw [doExchange_trace]; exact countAuth_auth_single g⟩
  | ok u =>
    cases u
    rw [dispatch_ok T _ _ hres]
    have hurl2 : (getRequest (doExchange T now g).state e p v).url ≠ authUrl g.host := by
      show (doExchange T now g).state.url e none v ≠ authUrl g.host
      rw [url_congr_host _ g e none v (doExchange_host T now g)]
      exact hurl
    constructor
    · show ((doExchange T now g).trace ++ _).head? = _
      rw [doExchange_trace]
      rfl
    · show countAuth g.host ((doExchange T now g).trace ++ _) = 1
      rw [doExchange_trace]
      exact countAuth_auth_pair g _ hurl2

lemma fresh_post_oneExchange (T : Request → HResponse) (now : Int)
    (g : Ghostfolio) (e : String) (d : Option Json) (v : String)
    (oid : Option String) (hTok : g.jwt_token = none)
    (hurl : g.url e oid v ≠ authUrl g.host) :
    oneExchangeFirst g (Ghostfolio.post T now g e d v oid).trace := by
  rw [post_def, refresh_of_no_token T now g hTok]
  cases hres : (doExchange T now g).result with
  | error err =>
    rw [dispatch_err T _ _ err hres]
    exact ⟨by rw [doExchange_trace]; rfl, by rw [doExchange_trace]; exact countAuth_auth_single g⟩
  | ok u =>
    cases u
    rw [dispatch_ok T _ _ hres]
    have hurl2 : (postRequest (doExchange T now g).state e d v oid).url ≠ authUrl g.host := by
      show (doExchange T now g).state.url e oid v ≠ authUrl g.host
      rw [url_congr_host _ g e oid v (doExchange_host T now g)]
      exact hurl
    constructor
    · show ((doExchange T now g).trace ++ _).head? = _
      rw [doExchange_trace]
      rfl
    · show countAuth g.host ((doExchange T now g).trace ++ _) = 1
      rw [doExchange_trace]
      exact countAuth_auth_pair g _ hurl2

lemma position_url_ne (g : Ghostfolio) (ds sym : String) :
    g.url ("portfolio/position/" ++ ds ++ "/" ++ sym) none "v1" ≠
      authUrl g.host := by
  apply url_none_ne_authUrl
  have h1 : ("portfolio/position/" : String).length = 19 := rfl
  have h2 : ("/" : String).length = 1 := rfl
  have h3 : ("v1" : String).length = 2 := rfl
  simp [String.length_append, h1, h2, h3]
  omega

lemma market_data_url_ne (g : Ghostfolio) (ds sym : String) :
    g.url ("admin/market-data/" ++ ds ++ "/" ++ sym) none "v1" ≠
      authUrl g.host := by
  apply url_none_ne_authUrl
  have h1 : ("admin/market-data/" : String).length = 18 := rfl
  have h2 : ("/" : String).length = 1 := rfl
  have h3 : ("v1" : String).length = 2 := rfl
  simp [String.length_append, h1, h2, h3]
  omega

/-- **C1** (code bug): the claim says a cached credential whose expiry is
still in the future is reused with zero credential-exchange requests.  The
guard on line 82 (`if self._jwt_token is not None and self._jwt_token_expiry
< datetime.now(): return`) skips the refresh only when the cached expiry is
already in the *past*, inverting the docstring "Refresh JWT token if
expired or not present".  Evaluation: a client with token `OLD` and expiry
100, called at instant 0 (expiry in the future), still issues exactly one
exchange request to the anonymous-auth endpoint, as the first request of
the call. -/
theorem C1_valid_token_still_exchanges :
    validClient.jwt_token = some "OLD" ∧
    validClient.jwt_token_expiry = some 100 ∧ (0 : Int) < 100 ∧
    countAuth "h"
      (Ghostfolio.get okTransport 0 validClient "order" none "v1").trace = 1 ∧
    (Ghostfolio.get okTransport 0 validClient "order" none "v1").trace.head? =
      some (authRequest validClient) :=
  ⟨rfl, rfl, by norm_num, rfl, rfl⟩

/-- **C2** (code bug): the claim says a cached credential whose expiry is in
the past triggers exactly one new credential-exchange request, replacing
the cached value.  Because the guard on line 82 returns early exactly when
the expiry is in the past, the code performs zero exchange requests there
and leaves the cached token and expiry untouched.  Evaluation: a client
with token `OLD` and expiry -5, called at instant 0. -/
theorem C2_expired_token_not_refreshed :
    expiredClient.jwt_token = some "OLD" ∧
    expiredClient.jwt_token_expiry = some (-5) ∧ (-5 : Int) < 0 ∧
    countAuth "h"
      (Ghostfolio.get okTransport 0 expiredClient "order" none "v1").trace = 0 ∧
    (Ghostfolio.get okTransport 0 expiredClient "order" none "v1").state =
      expiredClient :=
  ⟨rfl, rfl, by norm_num, rfl, rfl⟩

/-- **C3** (code bug): the claimed dispatch invariant — the Authorization
header carries a token whose stored expiry is in the future, or a refresh
was performed synchronously just before — fails.  Evaluation: with a
cached token `OLD` whose expiry -5 is in the past of the call instant 0,
`get` dispatches the resource request with header `Bearer OLD`, having
performed no credential exchange at all. -/
theorem C3_dispatch_with_expired_credential :
    (Ghostfolio.get okTransport 0 expiredClient "order" none "v1").trace =
      [getRequest expiredClient "order" none "v1"] ∧
    (getRequest expiredClient "order" none "v1").authHeader =
      some "Bearer OLD" ∧
    expiredClient.jwt_token_expiry = some (-5) ∧ (-5 : Int) < 0 ∧
    countAuth "h"
      (Ghostfolio.get okTransport 0 expiredClient "order" none "v1").trace = 0 :=
  ⟨rfl, rfl, rfl, by norm_num, rfl⟩

/-- **C4** (confirmed): on a freshly constructed client — no cached bearer
token and no cached expiry — the first call to each resource method issues
exactly one credential-exchange request, and that exchange is the first
request dispatched, before the resource request. -/
theorem C4_first_call_single_exchange (T : Request → HResponse) (now : Int)
    (g : Ghostfolio) (hTok : g.jwt_token = none)
    (_hExp : g.jwt_token_expiry = none)
    (a ds sym dr gb : String) (d : Json) :
    oneExchangeFirst g (Ghostfolio.orders T now g (some a)).trace ∧
    oneExchangeFirst g (Ghostfolio.orders T now g none).trace ∧
    oneExchangeFirst g (Ghostfolio.performance T now g dr).trace ∧
    oneExchangeFirst g (Ghostfolio.holdings T now g dr).trace ∧
    oneExchangeFirst g (Ghostfolio.position T now g ds sym).trace ∧
    oneExchangeFirst g (Ghostfolio.import_transactions T now g d).trace ∧
    oneExchangeFirst g (Ghostfolio.details T now g).trace ∧
    oneExchangeFirst g (Ghostfolio.investments T now g gb dr).trace ∧
    oneExchangeFirst g (Ghostfolio.dividends T now g gb dr).trace ∧
    oneExchangeFirst g (Ghostfolio.accounts T now g).trace ∧
    oneExchangeFirst g (Ghostfolio.market_data_admin T now g).trace ∧
    oneExchangeFirst g (Ghostfolio.market_data T now g ds sym).trace := by
  refine ⟨?_, ?_, ?_, ?_, ?_, ?_, ?_, ?_, ?_, ?_, ?_, ?_⟩
  · exact fresh_get_oneExchange T now g "order" _ "v1" hTok
      (url_none_ne_authUrl g _ _ (by decide))
  · exact fresh_get_oneExchange T now g "order" none "v1" hTok
      (url_none_ne_authUrl g _ _ (by decide))
  · exact fresh_get_oneExchange T now g "portfolio/performance" _ "v2" hTok
      (url_none_ne_authUrl g _ _ (by decide))
  · exact fresh_get_oneExchange T now g "portfolio/holdings" _ "v1" hTok
      (url_none_ne_authUrl g _ _ (by decide))
  · exact fresh_get_oneExchange T now g _ none "v1" hTok
      (position_url_ne g ds sym)
  · exact fresh_post_oneExchange T now g "import" (some d) "v1" none hTok
      (url_none_ne_authUrl g _ _ (by decide))
  · exact fresh_get_oneExchange T now g "portfolio/details" none "v1" hTok
      (url_none_ne_authUrl g _ _ (by decide))
  · exact fresh_get_oneExchange T now g "portfolio/investments" _ "v1" hTok
      (url_none_ne_authUrl g _ _ (by decide))
  · exact fresh_get_oneExchange T now g "portfolio/dividends" _ "v1" hTok
      (url_none_ne_authUrl g _ _ (by decide))
  · exact fresh_get_oneExchange T now g "account" none "v1" hTok
      (url_none_ne_authUrl g _ _ (by decide))
  · exact fresh_get_oneExchange T now g "admin/market-data" none "v1" hTok
      (url_none_ne_authUrl g _ _ (by decide))
  · exact fresh_get_oneExchange T now g _ none "v1" hTok
      (market_data_url_ne g ds sym)

/-- Witness for C4 at a concrete fresh client and transport. -/
theorem C4_first_call_single_exchange_witness :
    freshClient.jwt_token = none ∧ freshClient.jwt_token_expiry = none ∧
    (oneExchangeFirst freshClient
        (Ghostfolio.orders okTransport 0 freshClient (some "A1")).trace ∧
     oneExchangeFirst freshClient
        (Ghostfolio.orders okTransport 0 freshClient none).trace ∧
     oneExchangeFirst freshClient
        (Ghostfolio.performance okTransport 0 freshClient "1y").trace ∧
     oneExchangeFirst freshClient
        (Ghostfolio.holdings okTransport 0 freshClient "1y").trace ∧
     oneExchangeFirst freshClient
        (Ghostfolio.position okTransport 0 freshClient "DS" "SYM").trace ∧
     oneExchangeFirst freshClient
        (Ghostfolio.import_transactions okTransport 0 freshClient
          (Json.obj [])).trace ∧
     oneExchangeFirst freshClient
        (Ghostfolio.details okTransport 0 freshClient).trace ∧
     oneExchangeFirst freshClient
        (Ghostfolio.investments okTransport 0 freshClient "month" "1y").trace ∧
     oneExchangeFirst freshClient
        (Ghostfolio.dividends okTransport 0 freshClient "month" "1y").trace ∧
     oneExchangeFirst freshClient
        (Ghostfolio.accounts okTransport 0 freshClient).trace ∧
     oneExchangeFirst freshClient
        (Ghostfolio.market_data_admin okTransport 0 freshClient).trace ∧
     oneExchangeFirst freshClient
        (Ghostfolio.market_data okTransport 0 freshClient "DS" "SYM").trace) :=
  ⟨rfl, rfl,
    C4_first_call_single_exchange okTransport 0 freshClient rfl rfl
      "A1" "DS" "SYM" "1y" "month" (Json.obj [])⟩

lemma isErrorStatus_true_iff (s : Nat) :
    isErrorStatus s = true ↔ (400 ≤ s ∧ s < 600) := by
  simp [isErrorStatus]

lemma isErrorStatus_false_iff (s : Nat) :
    isErrorStatus s = false ↔ ¬ (400 ≤ s ∧ s < 600) := by
  simp [isErrorStatus]

lemma process_response_of_err (resp : HResponse)
    (h : isErrorStatus resp.status = true) :
    process_response resp =
      ([resp.text], .error (.httpError resp.status resp.text)) := by
  simp [process_response, h]

lemma process_response_of_ok (resp : HResponse)
    (h : isErrorStatus resp.status = false) :
    process_response resp = ([], .ok resp.json) := by
  simp [process_response, h]

lemma get_ok (T : Request → HResponse) (now : Int) (g : Ghostfolio)
    (e : String) (p : Option (List (String × String))) (v : String)
    (h : (refresh_jwt_token T now g).result = .ok ()) :
    Ghostfolio.get T now g e p v =
      { trace := (refresh_jwt_token T now g).trace ++
          [getRequest (refresh_jwt_token T now g).state e p v]
        log := (refresh_jwt_token T now g).log ++
          (process_response
            (T (getRequest (refresh_jwt_token T now g).state e p v))).1
        result := (process_response
            (T (getRequest (refresh_jwt_token T now g).state e p v))).2
        state := (refresh_jwt_token T now g).state } := by
  rw [get_def]
  exact dispatch_ok T _ _ h

lemma post_ok (T : Request → HResponse) (now : Int) (g : Ghostfolio)
    (e : String) (d : Option Json) (v : String) (oid : Option String)
    (h : (refresh_jwt_token T now g).result = .ok ()) :
    Ghostfolio.post T now g e d v oid =
      { trace := (refresh_jwt_token T now g).trace ++
          [postRequest (refresh_jwt_token T now g).state e d v oid]
        log := (refresh_jwt_token T now g).log ++
          (process_response
            (T (postRequest (refresh_jwt_token T now g).state e d v oid))).1
        result := (process_response
            (T (postRequest (refresh_jwt_token T now g).state e d v oid))).2
        state := (refresh_jwt_token T now g).state } := by
  rw [post_def]
  exact dispatch_ok T _ _ h

lemma put_ok (T : Request → HResponse) (now : Int) (g : Ghostfolio)
    (e : String) (d : Option Json) (v : String) (oid : Option String)
    (h : (refresh_jwt_token T now g).result = .ok ()) :
    Ghostfolio.put T now g e d v oid =
      { trace := (refresh_jwt_token T now g).trace ++
          [putRequest (refresh_jwt_token T now g).state e d v oid]
        log := (refresh_jwt_token T now g).log ++
          (process_response
            (T (putRequest (refresh_jwt_token T now g).state e d v oid))).1
        result := (process_response
            (T (putRequest (refresh_jwt_token T now g).state e d v oid))).2
        state := (refresh_jwt_token T now g).state } := by
  rw [put_def]
  exact dispatch_ok T _ _ h

lemma refresh_exchange_ok (T : Request → HResponse) (now : Int)
    (g : Ghostfolio) (hex : (refresh_jwt_token T now g).trace ≠ [])
    (hok : (refresh_jwt_token T now g).result = .ok ()) :
    ∃ tok, extractAuthToken (T (authRequest g)).json = .ok tok ∧
      (refresh_jwt_token T now g).state =
        { g with jwt_token := some tok,
                 jwt_token_expiry := some (now + thirtyDays) } := by
  cases h : g.jwt_token with
  | none =>
    rw [refresh_of_no_token T now g h] at hok ⊢
    exact doExchange_ok_state T now g hok
  | some t =>
    cases h2 : g.jwt_token_expiry with
    | none =>
      rw [show refresh_jwt_token T now g =
            { trace := [], log := [], result := .error .noneCompare,
              state := g } by
          simp only [refresh_jwt_token, h, h2]] at hok
      exact absurd hok (by simp)
    | some exp =>
      by_cases hlt : exp < now
      · rw [show refresh_jwt_token T now g =
              { trace := [], log := [], result := .ok (), state := g } by
            simp only [refresh_jwt_token, h, h2, hlt, if_true]] at hex
        exact absurd rfl hex
      · rw [show refresh_jwt_token T now g = doExchange T now g by
            simp only [refresh_jwt_token, h, h2, hlt, if_false]] at hok ⊢
        exact doExchange_ok_state T now g hok

/-- **C5** counterexample: the claim says the remote error is raised iff the
response status is non-2xx.  A 304 response is not 2xx, yet
`_process_response` raises nothing and logs nothing: `raise_for_status`
raises only on 4xx/5xx. -/
theorem C5_counterexample_304 :
    process_response { status := 304, text := "redirect", json := Json.null } =
      ([], Except.ok Json.null) ∧
    ¬ (200 ≤ 304 ∧ 304 < 300) :=
  ⟨rfl, by omega⟩

/-- **C5** (amended): every response handed to `_process_response` — and
`get`/`post`/`put` hand it every response they receive — raises the single
remote-error kind and returns no value exactly when the status is 4xx/5xx
(not merely non-2xx: 1xx/3xx raise nothing), appending the response body
to the error log before the raise; otherwise, in particular on every 2xx,
no error is raised and the decoded body is returned with nothing logged.
The last three conjuncts record that the three verbs route their resource
response through exactly this dispatch. -/
theorem C5_raise_iff_4xx5xx :
    (∀ resp : HResponse,
      (400 ≤ resp.status ∧ resp.status < 600 →
        process_response resp =
          ([resp.text], .error (.httpError resp.status resp.text))) ∧
      (¬ (400 ≤ resp.status ∧ resp.status < 600) →
        process_response resp = ([], .ok resp.json))) ∧
    (∀ (T : Request → HResponse) (r : CallResult Unit) (req : Request),
      r.result = .ok () →
      (400 ≤ (T req).status ∧ (T req).status < 600 →
        (dispatch T r req).result =
          .error (.httpError (T req).status (T req).text) ∧
        (dispatch T r req).log = r.log ++ [(T req).text]) ∧
      (¬ (400 ≤ (T req).status ∧ (T req).status < 600) →
        (dispatch T r req).result = .ok (T req).json ∧
        (dispatch T r req).log = r.log)) ∧
    (∀ (T : Request → HResponse) (now : Int) (g : Ghostfolio) (e : String)
        (p : Option (List (String × String))) (v : String),
      Ghostfolio.get T now g e p v =
        dispatch T (refresh_jwt_token T now g)
          (getRequest (refresh_jwt_token T now g).state e p v)) ∧
    (∀ (T : Request → HResponse) (now : Int) (g : Ghostfolio) (e : String)
        (d : Option Json) (v : String) (oid : Option String),
      Ghostfolio.post T now g e d v oid =
        dispatch T (refresh_jwt_token T now g)
          (postRequest (refresh_jwt_token T now g).state e d v oid)) ∧
    (∀ (T : Request → HResponse) (now : Int) (g : Ghostfolio) (e : String)
        (d : Option Json) (v : String) (oid : Option String),
      Ghostfolio.put T now g e d v oid =
        dispatch T (refresh_jwt_token T now g)
          (putRequest (refresh_jwt_token T now g).state e d v oid)) := by
  refine ⟨?_, ?_, fun T now g e p v => get_def T now g e p v,
    fun T now g e d v oid => post_def T now g e d v oid,
    fun T now g e d v oid => put_def T now g e d v oid⟩
  · intro resp
    constructor
    · intro h
      exact process_response_of_err resp ((isErrorStatus_true_iff _).mpr h)
    · intro h
      exact process_response_of_ok resp ((isErrorStatus_false_iff _).mpr h)
  · intro T r req h
    rw [dispatch_ok T r req h]
    constructor
    · intro hs
      have hpr := process_response_of_err (T req)
        ((isErrorStatus_true_iff _).mpr hs)
      exact ⟨by rw [hpr], by rw [hpr]⟩
    · intro hs
      have hpr := process_response_of_ok (T req)
        ((isErrorStatus_false_iff _).mpr hs)
      exact ⟨by rw [hpr], by rw [hpr]; simp⟩

/-- **C6** counterexample: the claim says the credential-exchange POST body
is the JSON object `{accessToken: <static token>}`.  In the source the
dictionary is passed as the second positional argument of `requests.post`,
which is `data=` (form-encoded), not `json=`: the assembled exchange
request carries no JSON body at all — the token travels as the
form-encoded field `accessToken`. -/
theorem C6_counterexample_body_not_json :
    (authRequest freshClient).jsonBody ≠
      some (Json.obj [("accessToken", Json.str "SECRET")]) ∧
    (authRequest freshClient).jsonBody = none ∧
    (authRequest freshClient).formData = some [("accessToken", "SECRET")] :=
  ⟨by simp [authRequest], rfl, rfl⟩

/-- **C6** (amended): the credential exchange issues a POST to
`{host}/api/v1/auth/anonymous/` whose form-encoded body (the `data=`
argument of `requests.post`, not a JSON body) carries the single field
`accessToken = <static access token>`; the new bearer token stored is the
`authToken` field of the decoded JSON response. -/
theorem C6_exchange_request_shape (T : Request → HResponse) (now : Int)
    (g : Ghostfolio) (hTok : g.jwt_token = none) (tok : String)
    (flds : List (String × Json))
    (hjson : (T (authRequest g)).json = Json.obj flds)
    (hfield : lookupField flds "authToken" = some (Json.str tok)) :
    (authRequest g).method = Method.POST ∧
    (authRequest g).url = g.host ++ "/api/v1/auth/anonymous/" ∧
    (authRequest g).formData = some [("accessToken", g.token)] ∧
    (authRequest g).jsonBody = none ∧
    ((refresh_jwt_token T now g).result = .ok () →
      (refresh_jwt_token T now g).state.jwt_token = some tok) := by
  refine ⟨rfl, rfl, rfl, rfl, ?_⟩
  intro hok
  rw [refresh_of_no_token T now g hTok] at hok ⊢
  obtain ⟨tok2, hex, hst⟩ := doExchange_ok_state T now g hok
  rw [hjson] at hex
  simp [extractAuthToken, hfield] at hex
  rw [hst, hex]

/-- Witness for C6 at the concrete fixture transport. -/
theorem C6_exchange_request_shape_witness :
    freshClient.jwt_token = none ∧
    (okTransport (authRequest freshClient)).json =
      Json.obj [("authToken", Json.str "JWT")] ∧
    lookupField [("authToken", Json.str "JWT")] "authToken" =
      some (Json.str "JWT") ∧
    ((authRequest freshClient).method = Method.POST ∧
     (authRequest freshClient).url =
       freshClient.host ++ "/api/v1/auth/anonymous/" ∧
     (authRequest freshClient).formData =
       some [("accessToken", freshClient.token)] ∧
     (authRequest freshClient).jsonBody = none ∧
     ((refresh_jwt_token okTransport 0 freshClient).result = .ok () →
       (refresh_jwt_token okTransport 0 freshClient).state.jwt_token =
         some "JWT")) :=
  ⟨rfl, rfl, rfl,
    C6_exchange_request_shape okTransport 0 freshClient rfl "JWT"
      [("authToken", Json.str "JWT")] rfl rfl⟩

/-- **C7** (confirmed): whenever the refresh actually performs a successful
credential exchange (it dispatched the exchange request and raised
nothing), the stored expiry is the exchange instant plus exactly the
client-side constant of 30 days — the bound is the same for every
transport, so it cannot come from the server response — and the refreshed
state, holding both the new token and the new expiry, is what the original
resource call's request is built from. -/
theorem C7_expiry_is_issuance_plus_30_days (T : Request → HResponse)
    (now : Int) (g : Ghostfolio) (e : String)
    (p : Option (List (String × String))) (v : String)
    (hex : (refresh_jwt_token T now g).trace ≠ [])
    (hok : (refresh_jwt_token T now g).result = .ok ()) :
    (refresh_jwt_token T now g).state.jwt_token_expiry =
      some (now + thirtyDays) ∧
    thirtyDays = 30 * 86400 ∧
    (∃ tok, (refresh_jwt_token T now g).state.jwt_token = some tok) ∧
    Ghostfolio.get T now g e p v =
      dispatch T (refresh_jwt_token T now g)
        (getRequest (refresh_jwt_token T now g).state e p v) ∧
    (getRequest (refresh_jwt_token T now g).state e p v).authHeader =
      some (bearerHeader (refresh_jwt_token T now g).state.jwt_token) := by
  obtain ⟨tok, _, hst⟩ := refresh_exchange_ok T now g hex hok
  refine ⟨?_, rfl, ⟨tok, ?_⟩, get_def T now g e p v, rfl⟩
  · rw [hst]
  · rw [hst]

/-- Witness for C7 at the concrete fixture transport. -/
theorem C7_expiry_is_issuance_plus_30_days_witness :
    (refresh_jwt_token okTransport 0 freshClient).trace ≠ [] ∧
    (refresh_jwt_token okTransport 0 freshClient).result = .ok () ∧
    ((refresh_jwt_token okTransport 0 freshClient).state.jwt_token_expiry =
        some (0 + thirtyDays) ∧
     thirtyDays = 30 * 86400 ∧
     (∃ tok, (refresh_jwt_token okTransport 0 freshClient).state.jwt_token =
        some tok) ∧
     Ghostfolio.get okTransport 0 freshClient "order" none "v1" =
       dispatch okTransport (refresh_jwt_token okTransport 0 freshClient)
         (getRequest (refresh_jwt_token okTransport 0 freshClient).state
           "order" none "v1") ∧
     (getRequest (refresh_jwt_token okTransport 0 freshClient).state
         "order" none "v1").authHeader =
       some (bearerHeader
         (refresh_jwt_token okTransport 0 freshClient).state.jwt_token)) :=
  ⟨List.cons_ne_nil _ _, rfl,
    C7_expiry_is_issuance_plus_30_days okTransport 0 freshClient
      "order" none "v1" (List.cons_ne_nil _ _) rfl⟩

/-- **C8** (confirmed): `orders` with an account id issues, besides whatever
the credential refresh dispatched (only POSTs to the auth endpoint),
exactly one GET request — to the order endpoint, carrying exactly the query
parameter `accounts=A1`; `orders` without an argument issues the same GET
with no query parameters at all (`params=None`). -/
theorem C8_orders_query_params (T : Request → HResponse) (now : Int)
    (g : Ghostfolio)
    (hok : (refresh_jwt_token T now g).result = .ok ()) :
    (Ghostfolio.orders T now g (some "A1")).trace =
      (refresh_jwt_token T now g).trace ++
        [getRequest (refresh_jwt_token T now g).state "order"
          (some [("accounts", "A1")]) "v1"] ∧
    (Ghostfolio.orders T now g none).trace =
      (refresh_jwt_token T now g).trace ++
        [getRequest (refresh_jwt_token T now g).state "order" none "v1"] ∧
    (getRequest (refresh_jwt_token T now g).state "order"
        (some [("accounts", "A1")]) "v1").method = Method.GET ∧
    (getRequest (refresh_jwt_token T now g).state "order"
        (some [("accounts", "A1")]) "v1").url =
      (refresh_jwt_token T now g).state.host ++ "/api/v1/order/" ∧
    (getRequest (refresh_jwt_token T now g).state "order"
        (some [("accounts", "A1")]) "v1").params =
      some [("accounts", "A1")] ∧
    (getRequest (refresh_jwt_token T now g).state "order" none "v1").params =
      none ∧
    (∀ r ∈ (refresh_jwt_token T now g).trace, r.method = Method.POST) ∧
    (Ghostfolio.orders T now g (some "A1")).trace.countP
      (fun r => r.method == Method.GET) = 1 ∧
    (Ghostfolio.orders T now g none).trace.countP
      (fun r => r.method == Method.GET) = 1 := by
  have h1 : Ghostfolio.orders T now g (some "A1") =
      Ghostfolio.get T now g "order" (some [("accounts", "A1")]) "v1" := rfl
  have h2 : Ghostfolio.orders T now g none =
      Ghostfolio.get T now g "order" none "v1" := rfl
  have hpost : ∀ r ∈ (refresh_jwt_token T now g).trace, r.method = Method.POST := by
    rcases refresh_trace_cases T now g with h | h <;> rw [h]
    · intro r hr
      exact absurd hr (List.not_mem_nil r)
    · intro r hr
      rw [List.mem_singleton.mp hr]
      rfl
  refine ⟨?_, ?_, rfl, ?_, rfl, rfl, hpost, ?_, ?_⟩
  · rw [h1, get_ok T now g _ _ _ hok]
  · rw [h2, get_ok T now g _ _ _ hok]
  · show (refresh_jwt_token T now g).state.url "order" none "v1" = _
    simp [Ghostfolio.url, String.append_assoc]
  · rw [h1, get_ok T now g _ _ _ hok]
    show ((refresh_jwt_token T now g).trace ++ [_]).countP _ = 1
    rw [List.countP_append]
    rcases refresh_trace_cases T now g with h | h <;> rw [h] <;> rfl
  · rw [h2, get_ok T now g _ _ _ hok]
    show ((refresh_jwt_token T now g).trace ++ [_]).countP _ = 1
    rw [List.countP_append]
    rcases refresh_trace_cases T now g with h | h <;> rw [h] <;> rfl

/-- Witness for C8 at the concrete fixture transport. -/
theorem C8_orders_query_params_witness :
    (refresh_jwt_token okTransport 0 freshClient).result = .ok () ∧
    ((Ghostfolio.orders okTransport 0 freshClient (some "A1")).trace =
      (refresh_jwt_token okTransport 0 freshClient).trace ++
        [getRequest (refresh_jwt_token okTransport 0 freshClient).state "order"
          (some [("accounts", "A1")]) "v1"] ∧
    (Ghostfolio.orders okTransport 0 freshClient none).trace =
      (refresh_jwt_token okTransport 0 freshClient).trace ++
        [getRequest (refresh_jwt_token okTransport 0 freshClient).state
          "order" none "v1"] ∧
    (getRequest (refresh_jwt_token okTransport 0 freshClient).state "order"
        (some [("accounts", "A1")]) "v1").method = Method.GET ∧
    (getRequest (refresh_jwt_token okTransport 0 freshClient).state "order"
        (some [("accounts", "A1")]) "v1").url =
      (refresh_jwt_token okTransport 0 freshClient).state.host ++
        "/api/v1/order/" ∧
    (getRequest (refresh_jwt_token okTransport 0 freshClient).state "order"
        (some [("accounts", "A1")]) "v1").params =
      some [("accounts", "A1")] ∧
    (getRequest (refresh_jwt_token okTransport 0 freshClient).state "order"
        none "v1").params = none ∧
    (∀ r ∈ (refresh_jwt_token okTransport 0 freshClient).trace,
        r.method = Method.POST) ∧
    (Ghostfolio.orders okTransport 0 freshClient (some "A1")).trace.countP
      (fun r => r.method == Method.GET) = 1 ∧
    (Ghostfolio.orders okTransport 0 freshClient none).trace.countP
      (fun r => r.method == Method.GET) = 1) :=
  ⟨rfl, C8_orders_query_params okTransport 0 freshClient rfl⟩

/-- **C9** counterexample: the claim quantifies over *every* resource
method, but `import_transactions` discards the decoded response and
returns `None`.  Concretely: under a transport whose resource responses
are 2xx with body `7`, and under one whose bodies are `8`,
`import_transactions` returns `()` both times — the 2xx JSON body is not
returned — while `get` on the same transports does return the bodies. -/
theorem C9_counterexample_import_discards :
    (Ghostfolio.import_transactions okTransport 0 freshClient
        (Json.obj [])).result = .ok () ∧
    (Ghostfolio.import_transactions okTransport8 0 freshClient
        (Json.obj [])).result = .ok () ∧
    (okTransport (postRequest
        (refresh_jwt_token okTransport 0 freshClient).state "import"
        (some (Json.obj [])) "v1" none)).status = 200 ∧
    (okTransport (postRequest
        (refresh_jwt_token okTransport 0 freshClient).state "import"
        (some (Json.obj [])) "v1" none)).json = Json.num 7 ∧
    (okTransport8 (postRequest
        (refresh_jwt_token okTransport8 0 freshClient).state "import"
        (some (Json.obj [])) "v1" none)).json = Json.num 8 ∧
    (Ghostfolio.get okTransport 0 freshClient "order" none "v1").result =
      .ok (Json.num 7) ∧
    (Ghostfolio.get okTransport8 0 freshClient "order" none "v1").result =
      .ok (Json.num 8) :=
  ⟨rfl, rfl, rfl, rfl, rfl, rfl, rfl⟩

/-- **C9** (amended): for every resource method except
`import_transactions`, whenever the transport answers the method's
resource request with a non-4xx/5xx (in particular any 2xx) status, the
method returns the decoded JSON body verbatim, with no transformation:
stated for the three verbs, with each convenience wrapper shown equal to
its underlying verb call.  `import_transactions` issues its POST but
discards the decoded body and returns nothing. -/
theorem C9_roundtrip_verbatim :
    (∀ (T : Request → HResponse) (now : Int) (g : Ghostfolio) (e : String)
        (p : Option (List (String × String))) (v : String),
      (refresh_jwt_token T now g).result = .ok () →
      isErrorStatus
        (T (getRequest (refresh_jwt_token T now g).state e p v)).status =
          false →
      (Ghostfolio.get T now g e p v).result =
        .ok (T (getRequest (refresh_jwt_token T now g).state e p v)).json) ∧
    (∀ (T : Request → HResponse) (now : Int) (g : Ghostfolio) (e : String)
        (d : Option Json) (v : String) (oid : Option String),
      (refresh_jwt_token T now g).result = .ok () →
      isErrorStatus
        (T (postRequest (refresh_jwt_token T now g).state e d v oid)).status =
          false →
      (Ghostfolio.post T now g e d v oid).result =
        .ok (T (postRequest (refresh_jwt_token T now g).state e d v oid)).json) ∧
    (∀ (T : Request → HResponse) (now : Int) (g : Ghostfolio) (e : String)
        (d : Option Json) (v : String) (oid : Option String),
      (refresh_jwt_token T now g).result = .ok () →
      isErrorStatus
        (T (putRequest (refresh_jwt_token T now g).state e d v oid)).status =
          false →
      (Ghostfolio.put T now g e d v oid).result =
        .ok (T (putRequest (refresh_jwt_token T now g).state e d v oid)).json) ∧
    (∀ (T : Request → HResponse) (now : Int) (g : Ghostfolio) (a : String),
      a ≠ "" →
      Ghostfolio.orders T now g (some a) =
        Ghostfolio.get T now g "order" (some [("accounts", a)]) "v1") ∧
    (∀ (T : Request → HResponse) (now : Int) (g : Ghostfolio),
      Ghostfolio.orders T now g none =
        Ghostfolio.get T now g "order" none "v1") ∧
    (∀ (T : Request → HResponse) (now : Int) (g : Ghostfolio) (dr : String),
      Ghostfolio.performance T now g dr =
        Ghostfolio.get T now g "portfolio/performance"
          (some [("range", dr)]) "v2") ∧
    (∀ (T : Request → HResponse) (now : Int) (g : Ghostfolio) (dr : String),
      Ghostfolio.holdings T now g dr =
        Ghostfolio.get T now g "portfolio/holdings"
          (some [("range", dr)]) "v1") ∧
    (∀ (T : Request → HResponse) (now : Int) (g : Ghostfolio) (ds sym : String),
      Ghostfolio.position T now g ds sym =
        Ghostfolio.get T now g
          ("portfolio/position/" ++ ds ++ "/" ++ sym) none "v1") ∧
    (∀ (T : Request → HResponse) (now : Int) (g : Ghostfolio),
      Ghostfolio.details T now g =
        Ghostfolio.get T now g "portfolio/details" none "v1") ∧
    (∀ (T : Request → HResponse) (now : Int) (g : Ghostfolio) (gb dr : String),
      Ghostfolio.investments T now g gb dr =
        Ghostfolio.get T now g "portfolio/investments"
          (some [("range", dr), ("groupBy", gb)]) "v1") ∧
    (∀ (T : Request → HResponse) (now : Int) (g : Ghostfolio) (gb dr : String),
      Ghostfolio.dividends T now g gb dr =
        Ghostfolio.get T now g "portfolio/dividends"
          (some [("range", dr), ("groupBy", gb)]) "v1") ∧
    (∀ (T : Request → HResponse) (now : Int) (g : Ghostfolio),
      Ghostfolio.accounts T now g =
        Ghostfolio.get T now g "account" none "v1") ∧
    (∀ (T : Request → HResponse) (now : Int) (g : Ghostfolio),
      Ghostfolio.market_data_admin T now g =
        Ghostfolio.get T now g "admin/market-data" none "v1") ∧
    (∀ (T : Request → HResponse) (now : Int) (g : Ghostfolio) (ds sym : String),
      Ghostfolio.market_data T now g ds sym =
        Ghostfolio.get T now g
          ("admin/market-data/" ++ ds ++ "/" ++ sym) none "v1") ∧
    (∀ (T : Request → HResponse) (now : Int) (g : Ghostfolio) (d : Json),
      (Ghostfolio.import_transactions T now g d).result =
        (Ghostfolio.post T now g "import" (some d) "v1" none).result.map
          (fun _ => ())) ∧
    (∀ (T : Request → HResponse) (now : Int) (g : Ghostfolio) (d : Json),
      (refresh_jwt_token T now g).result = .ok () →
      isErrorStatus
        (T (postRequest (refresh_jwt_token T now g).state "import"
          (some d) "v1" none)).status = false →
      (Ghostfolio.import_transactions T now g d).result = .ok ()) := by
  have hget : ∀ (T : Request → HResponse) (now : Int) (g : Ghostfolio)
      (e : String) (p : Option (List (String × String))) (v : String),
      (refresh_jwt_token T now g).result = .ok () →
      isErrorStatus
        (T (getRequest (refresh_jwt_token T now g).state e p v)).status =
          false →
      (Ghostfolio.get T now g e p v).result =
        .ok (T (getRequest (refresh_jwt_token T now g).state e p v)).json := by
    intro T now g e p v hok hs
    rw [get_ok T now g e p v hok]
    show (process_response _).2 = _
    rw [process_response_of_ok _ hs]
  have hpost : ∀ (T : Request → HResponse) (now : Int) (g : Ghostfolio)
      (e : String) (d : Option Json) (v : String) (oid : Option String),
      (refresh_jwt_token T now g).result = .ok () →
      isErrorStatus
        (T (postRequest (refresh_jwt_token T now g).state e d v oid)).status =
          false →
      (Ghostfolio.post T now g e d v oid).result =
        .ok (T (postRequest (refresh_jwt_token T now g).state e d v oid)).json := by
    intro T now g e d v oid hok hs
    rw [post_ok T now g e d v oid hok]
    show (process_response _).2 = _
    rw [process_response_of_ok _ hs]
  have hput : ∀ (T : Request → HResponse) (now : Int) (g : Ghostfolio)
      (e : String) (d : Option Json) (v : String) (oid : Option String),
      (refresh_jwt_token T now g).result = .ok () →
      isErrorStatus
        (T (putRequest (refresh_jwt_token T now g).state e d v oid)).status =
          false →
      (Ghostfolio.put T now g e d v oid).result =
        .ok (T (putRequest (refresh_jwt_token T now g).state e d v oid)).json := by
    intro T now g e d v oid hok hs
    rw [put_ok T now g e d v oid hok]
    show (process_response _).2 = _
    rw [process_response_of_ok _ hs]
  refine ⟨hget, hpost, hput, ?_, fun T now g => rfl, fun T now g dr => rfl,
    fun T now g dr => rfl, fun T now g ds sym => rfl, fun T now g => rfl,
    fun T now g gb dr => rfl, fun T now g gb dr => rfl, fun T now g => rfl,
    fun T now g => rfl, fun T now g ds sym => rfl, fun T now g d => rfl, ?_⟩
  · intro T now g a ha
    simp only [Ghostfolio.orders, ha, if_false]
  · intro T now g d hok hs
    have := hpost T now g "import" (some d) "v1" none hok hs
    show (Ghostfolio.post T now g "import" (some d) "v1" none).result.map
      (fun _ => ()) = .ok ()
    rw [this]
    rfl

/-- Witness for C9: the round-trip at the fixture transport (body `7`), and
the discarding import. -/
theorem C9_roundtrip_verbatim_witness :
    (Ghostfolio.get okTransport 0 freshClient "order" none "v1").result =
      .ok (okTransport (getRequest
        (refresh_jwt_token okTransport 0 freshClient).state "order" none
        "v1")).json ∧
    (Ghostfolio.import_transactions okTransport 0 freshClient
        (Json.obj [])).result = .ok () := by
  obtain ⟨hg, -, -, -, -, -, -, -, -, -, -, -, -, -, -, hi⟩ :=
    C9_roundtrip_verbatim
  exact ⟨hg okTransport 0 freshClient "order" none "v1" rfl rfl,
         hi okTransport 0 freshClient (Json.obj []) rfl rfl⟩

/-- Witness for C5: a 404 raises with the body logged, a 200 returns the
body. -/
theorem C5_raise_iff_4xx5xx_witness :
    process_response { status := 404, text := "nf", json := Json.null } =
      (["nf"], .error (.httpError 404 "nf")) ∧
    process_response { status := 200, text := "ok", json := Json.num 1 } =
      ([], .ok (Json.num 1)) :=
  ⟨(C5_raise_iff_4xx5xx.1 { status := 404, text := "nf", json := Json.null }).1
      (by decide),
   (C5_raise_iff_4xx5xx.1 { status := 200, text := "ok", json := Json.num 1 }).2
      (by decide)⟩

lemma dispatch_state (T : Request → HResponse) (r : CallResult Unit)
    (req : Request) : (dispatch T r req).state = r.state := by
  unfold dispatch
  split <;> rfl

lemma process_response_err_shape (resp : HResponse) (e : PyError)
    (h : (process_response resp).2 = .error e) :
    e = .httpError resp.status resp.text := by
  unfold process_response at h
  by_cases hs : isErrorStatus resp.status
  · simp [hs] at h
    exact h.symm
  · simp [hs] at h

lemma extractAuthToken_err_shape (j : Json) (e : PyError)
    (h : extractAuthToken j = .error e) :
    e = .typeError ∨ e = .keyError "authToken" := by
  cases j with
  | obj fields =>
    revert h
    cases hl : lookupField fields "authToken" with
    | none =>
      intro h
      simp [extractAuthToken, hl] at h
      exact Or.inr h.symm
    | some jv =>
      cases jv <;> intro h <;> simp [extractAuthToken, hl] at h <;>
        exact Or.inl h.symm
  | null => simp [extractAuthToken] at h; exact Or.inl h.symm
  | bool b => simp [extractAuthToken] at h; exact Or.inl h.symm
  | num n => simp [extractAuthToken] at h; exact Or.inl h.symm
  | str s => simp [extractAuthToken] at h; exact Or.inl h.symm
  | arr xs => simp [extractAuthToken] at h; exact Or.inl h.symm

lemma doExchange_ne_noneCompare (T : Request → HResponse) (now : Int)
    (g : Ghostfolio) :
    (doExchange T now g).result ≠ .error .noneCompare := by
  simp only [doExchange]
  split
  · next e hp =>
    intro hcon
    simp only [Except.error.injEq] at hcon
    have hsh := process_response_err_shape (T (authRequest g)) e hp
    rw [hcon] at hsh
    exact PyError.noConfusion hsh
  · next j hp =>
    split
    · next e hx =>
      intro hcon
      simp only [Except.error.injEq] at hcon
      rcases extractAuthToken_err_shape j e hx with hsh | hsh <;>
        rw [hcon] at hsh <;> exact PyError.noConfusion hsh
    · next tok hx =>
      intro hcon
      exact Except.noConfusion hcon

/-- **C10** (confirmed): the constructor establishes, and the refresh and
every request operation preserve, the coherence invariant "cached token is
`None` iff cached expiry is `None`"; consequently the guard on line 82 —
whose comparison is reached only when the token is not `None`, hence by
the invariant with a non-`None` expiry — can never raise the `TypeError`
that comparing a `None` expiry against `datetime.now()` would produce. -/
theorem C10_cache_coherence_no_none_compare :
    (∀ (token host : String) (vs : Bool),
      cacheInv (Ghostfolio.mk0 token host vs)) ∧
    (∀ (T : Request → HResponse) (now : Int) (g : Ghostfolio),
      cacheInv g → cacheInv (refresh_jwt_token T now g).state) ∧
    (∀ (T : Request → HResponse) (now : Int) (g : Ghostfolio) (e : String)
        (p : Option (List (String × String))) (v : String),
      cacheInv g → cacheInv (Ghostfolio.get T now g e p v).state) ∧
    (∀ (T : Request → HResponse) (now : Int) (g : Ghostfolio) (e : String)
        (d : Option Json) (v : String) (oid : Option String),
      cacheInv g → cacheInv (Ghostfolio.post T now g e d v oid).state) ∧
    (∀ (T : Request → HResponse) (now : Int) (g : Ghostfolio) (e : String)
        (d : Option Json) (v : String) (oid : Option String),
      cacheInv g → cacheInv (Ghostfolio.put T now g e d v oid).state) ∧
    (∀ (T : Request → HResponse) (now : Int) (g : Ghostfolio) (d : Json),
      cacheInv g →
        cacheInv (Ghostfolio.import_transactions T now g d).state) ∧
    (∀ (T : Request → HResponse) (now : Int) (g : Ghostfolio),
      cacheInv g →
        (refresh_jwt_token T now g).result ≠ .error .noneCompare) := by
  have hrefresh : ∀ (T : Request → HResponse) (now : Int) (g : Ghostfolio),
      cacheInv g → cacheInv (refresh_jwt_token T now g).state := by
    intro T now g hinv
    rcases refresh_state_cases T now g with h | ⟨tok, h⟩ <;> rw [h]
    · exact hinv
    · simp [cacheInv]
  have hget : ∀ (T : Request → HResponse) (now : Int) (g : Ghostfolio)
      (e : String) (p : Option (List (String × String))) (v : String),
      cacheInv g → cacheInv (Ghostfolio.get T now g e p v).state := by
    intro T now g e p v hinv
    rw [get_def, dispatch_state]
    exact hrefresh T now g hinv
  have hpost : ∀ (T : Request → HResponse) (now : Int) (g : Ghostfolio)
      (e : String) (d : Option Json) (v : String) (oid : Option String),
      cacheInv g → cacheInv (Ghostfolio.post T now g e d v oid).state := by
    intro T now g e d v oid hinv
    rw [post_def, dispatch_state]
    exact hrefresh T now g hinv
  refine ⟨?_, hrefresh, hget, hpost, ?_, ?_, ?_⟩
  · intro token host vs
    simp [cacheInv, Ghostfolio.mk0]
  · intro T now g e d v oid hinv
    rw [put_def, dispatch_state]
    exact hrefresh T now g hinv
  · intro T now g d hinv
    exact hpost T now g "import" (some d) "v1" none hinv
  · intro T now g hinv
    cases h : g.jwt_token with
    | none =>
      rw [refresh_of_no_token T now g h]
      exact doExchange_ne_noneCompare T now g
    | some t =>
      cases h2 : g.jwt_token_expiry with
      | none =>
        rw [hinv.mpr h2] at h
        exact Option.noConfusion h
      | some exp =>
        by_cases hlt : exp < now
        · rw [show refresh_jwt_token T now g =
              { trace := [], log := [], result := .ok (), state := g } by
            simp only [refresh_jwt_token, h, h2, hlt, if_true]]
          simp
        · rw [show refresh_jwt_token T now g = doExchange T now g by
            simp only [refresh_jwt_token, h, h2, hlt, if_false]]
          exact doExchange_ne_noneCompare T now g

/-- Witness for C10: the invariant at the fixture clients and the guard at
an expired-credential client. -/
theorem C10_cache_coherence_no_none_compare_witness :
    cacheInv freshClient ∧
    cacheInv (refresh_jwt_token okTransport 0 freshClient).state ∧
    cacheInv (Ghostfolio.get okTransport 0 validClient "order" none "v1").state ∧
    (refresh_jwt_token okTransport 0 expiredClient).result ≠
      .error .noneCompare :=
  ⟨C10_cache_coherence_no_none_compare.1 "SECRET" "h" true,
   C10_cache_coherence_no_none_compare.2.1 okTransport 0 freshClient
     (C10_cache_coherence_no_none_compare.1 "SECRET" "h" true),
   C10_cache_coherence_no_none_compare.2.2.1 okTransport 0 validClient
     "order" none "v1" (by simp [cacheInv, validClient, freshClient]),
   C10_cache_coherence_no_none_compare.2.2.2.2.2.2 okTransport 0
     expiredClient (by simp [cacheInv, expiredClient, freshClient])⟩
